import Mathlib

/-!
# Sensor-fusion controller of the extended Kalman filter (`src/FusionEKF.cpp`)

A shallow embedding of `FusionEKF::FusionEKF` and `FusionEKF::ProcessMeasurement`.

Modelling conventions.

* `double` is modelled by an arbitrary linearly ordered field `α` (the theorems
  instantiate it with `ℝ` where trigonometry or definiteness is needed, and the
  definitions can be evaluated over `ℚ`): rounding, infinities and NaN are outside the
  model.
* `long long` timestamps are modelled by `Int`; the subtraction of line 104 is the
  mathematical difference.
* Eigen values whose dimension the source fixes (`VectorXd(4)`, `MatrixXd(4, 4)`,
  `MatrixXd(2, 2)`, ...) are functions and matrices over `Fin`.  The observation model
  `ekf_.H_`, `ekf_.R_` of the estimator changes its number of rows between the laser (2)
  and the radar (3) path, so `KalmanFilter` carries that number in the field `rows`.
* `raw_measurements_` is a dynamically sized `VectorXd`, modelled by a list; a record is
  well formed when it has 2 (laser) or 3 (radar) entries.
* `kalman_filter.cpp` and `tools.cpp` are not part of the sources at hand.  `Predict`,
  `Update` and `UpdateEKF` are modelled from the specification; the C library functions
  and the parts the specification leaves open are collected in `Env`.
-/

namespace EKF

/-- Sensor kind of an observation record (`MeasurementPackage::SensorType`). -/
inductive SensorType where
  | LASER
  | RADAR
  deriving DecidableEq, Repr

/-- Observation record handed to `ProcessMeasurement`. -/
structure MeasurementPackage (α : Type) where
  sensor_type_ : SensorType
  timestamp_ : Int
  raw_measurements_ : List α

/-- Coefficient access `v[i]` on a dynamically sized vector.  Reading past the end is an
Eigen assertion failure in the source; the model returns `0` there, and no well-formed
record triggers it. -/
def coeff {α : Type} [Zero α] (v : List α) (i : Nat) : α :=
  v.getD i 0

/-- State estimator (`KalmanFilter`, member `ekf_`): state, covariance, transition model,
process noise and the currently installed observation model with `rows` rows. -/
structure KalmanFilter (α : Type) where
  x_ : Fin 4 → α
  P_ : Matrix (Fin 4) (Fin 4) α
  F_ : Matrix (Fin 4) (Fin 4) α
  Q_ : Matrix (Fin 4) (Fin 4) α
  rows : Nat
  H_ : Matrix (Fin rows) (Fin 4) α
  R_ : Matrix (Fin rows) (Fin rows) α

/-- Functions used by the controller whose code is outside `FusionEKF.cpp`: `cos` and `sin`
of the C library, `Tools::CalculateJacobian`, and the two ingredients of `UpdateEKF` that
the specification leaves to the implementation (the predicted radar measurement with its
guard near range zero, component by component, and the bearing normalisation). -/
structure Env (α : Type) where
  cos : α → α
  sin : α → α
  CalculateJacobian : (Fin 4 → α) → Matrix (Fin 3) (Fin 4) α
  h : (Fin 4 → α) → Nat → α
  normalize : α → α

/-- Fusion controller (`FusionEKF`). -/
structure FusionEKF (α : Type) where
  ekf_ : KalmanFilter α
  is_initialized_ : Bool
  previous_timestamp_ : Int
  R_laser_ : Matrix (Fin 2) (Fin 2) α
  R_radar_ : Matrix (Fin 3) (Fin 3) α
  H_laser_ : Matrix (Fin 2) (Fin 4) α
  Hj_ : Matrix (Fin 3) (Fin 4) α

section Model

variable {α : Type} [LinearOrderedField α]

/-- Assignment to one coefficient, `M(i, j) = v`. -/
def setCoeff (M : Matrix (Fin 4) (Fin 4) α) (i j : Fin 4) (v : α) : Matrix (Fin 4) (Fin 4) α :=
  Matrix.of fun a b => if a = i ∧ b = j then v else M a b

/-- Inverse of the innovation covariance, by the adjugate formula.  For a singular matrix
the value is the zero matrix; the source would produce non-finite numbers there. -/
def inverse {n : Nat} (S : Matrix (Fin n) (Fin n) α) : Matrix (Fin n) (Fin n) α :=
  (S.det)⁻¹ • S.adjugate

/-- Modelled from the spec: `KalmanFilter::Predict` (kalman_filter.cpp is missing).
"state ← transition-model · state; covariance ← transition-model · covariance ·
transition-model-transpose + process-noise covariance." -/
def KalmanFilter.Predict (k : KalmanFilter α) : KalmanFilter α :=
  { k with
    x_ := k.F_.mulVec k.x_
    P_ := k.F_ * k.P_ * k.F_.transpose + k.Q_ }

/-- Modelled from the spec: the gain and covariance algebra shared by `Update` and
`UpdateEKF` (kalman_filter.cpp is missing), applied to an innovation `y`:
"innovation covariance = observation-matrix · covariance · observation-matrix-transpose +
observation-noise covariance; Kalman gain = covariance · observation-matrix-transpose ·
inverse(innovation covariance); state ← state + gain · innovation; covariance ←
(identity − gain · observation-matrix) · covariance." -/
def KalmanFilter.correct (k : KalmanFilter α) (y : Fin k.rows → α) : KalmanFilter α :=
  let Ht := k.H_.transpose
  let S := k.H_ * k.P_ * Ht + k.R_
  let K := k.P_ * Ht * inverse S
  { k with
    x_ := k.x_ + K.mulVec y
    P_ := (1 - K * k.H_) * k.P_ }

/-- Modelled from the spec: `KalmanFilter::Update` (kalman_filter.cpp is missing), with
"innovation = measurement − (observation-matrix · state)". -/
def KalmanFilter.Update (k : KalmanFilter α) (z : List α) : KalmanFilter α :=
  k.correct fun i => coeff z i.val - (k.H_.mulVec k.x_) i

/-- Modelled from the spec: `KalmanFilter::UpdateEKF` (kalman_filter.cpp is missing):
"identical gain/covariance algebra to Update", the predicted measurement is the nonlinear
observation function applied to the state, and the bearing component (index 1) of the
innovation is normalised after the subtraction. -/
def KalmanFilter.UpdateEKF (env : Env α) (k : KalmanFilter α) (z : List α) : KalmanFilter α :=
  k.correct fun i =>
    let d := coeff z i.val - env.h k.x_ i.val
    if i.val = 1 then env.normalize d else d

/-- The constructor `FusionEKF::FusionEKF()` (lines 15-57).  `ekf0` is the
default-constructed member `ekf_` and `Hj0` the unassigned content of `Hj_`; the body
overwrites `ekf_.P_` and `ekf_.F_` and leaves the other members of `ekf_` alone. -/
def FusionEKF.new (ekf0 : KalmanFilter α) (Hj0 : Matrix (Fin 3) (Fin 4) α) :
    FusionEKF α :=
  { is_initialized_ := false
    previous_timestamp_ := 0
    R_laser_ := !![0.0225, 0;
                   0, 0.0225]
    R_radar_ := !![0.09, 0, 0;
                   0, 0.0009, 0;
                   0, 0, 0.09]
    H_laser_ := !![1.0, 0, 0, 0;
                   0, 1.0, 0, 0]
    Hj_ := Hj0
    ekf_ :=
      { ekf0 with
        P_ := !![1, 0, 0, 0;
                 0, 1, 0, 0;
                 0, 0, 1000, 0;
                 0, 0, 0, 1000]
        F_ := !![1, 0, 1, 0;
                 0, 1, 0, 1;
                 0, 0, 1, 0;
                 0, 0, 0, 1] } }

/-- Line 104: `dt = (measurement_pack.timestamp_ - previous_timestamp_) / 1000000.0`. -/
def FusionEKF.dt (s : FusionEKF α) (measurement_pack : MeasurementPackage α) : α :=
  ((measurement_pack.timestamp_ - s.previous_timestamp_ : Int) : α) / 1000000

/-- Lines 107-109 and 115-125: the process covariance matrix `Q` built from `dt`. -/
def processNoise (dt : α) : Matrix (Fin 4) (Fin 4) α :=
  let dt_2 := dt * dt
  let dt_3 := dt_2 * dt
  let dt_4 := dt_3 * dt
  let noise_ax : α := 9.0
  let noise_ay : α := 9.0
  !![dt_4 / 4 * noise_ax, 0.0, dt_3 / 2 * noise_ax, 0.0;
     0.0, dt_4 / 4 * noise_ay, 0.0, dt_3 / 2 * noise_ay;
     dt_3 / 2 * noise_ax, 0.0, dt_2 * noise_ax, 0.0;
     0.0, dt_3 / 2 * noise_ay, 0.0, dt_2 * noise_ay]

/-- Lines 104-125: the estimator with `F_(0, 2)`, `F_(1, 3)` and `Q_` refreshed for the
elapsed time, as it stands right before `ekf_.Predict()`. -/
def FusionEKF.timeModel (s : FusionEKF α) (measurement_pack : MeasurementPackage α) :
    KalmanFilter α :=
  let dt := s.dt measurement_pack
  { s.ekf_ with
    F_ := setCoeff (setCoeff s.ekf_.F_ 0 2 dt) 1 3 dt
    Q_ := processNoise dt }

/-- `FusionEKF::ProcessMeasurement` (lines 64-153); the printing is left out. -/
def FusionEKF.ProcessMeasurement (env : Env α) (s : FusionEKF α)
    (measurement_pack : MeasurementPackage α) : FusionEKF α :=
  if s.is_initialized_ = false then
    let x : Fin 4 → α :=
      match measurement_pack.sensor_type_ with
      | SensorType.RADAR =>
        let rho := coeff measurement_pack.raw_measurements_ 0
        let phi := coeff measurement_pack.raw_measurements_ 1
        ![rho * env.cos phi, rho * env.sin phi, 0.0, 0.0]
      | SensorType.LASER =>
        ![coeff measurement_pack.raw_measurements_ 0,
          coeff measurement_pack.raw_measurements_ 1, 0.0, 0.0]
    { s with
      ekf_ := { s.ekf_ with x_ := x }
      previous_timestamp_ := measurement_pack.timestamp_
      is_initialized_ := true }
  else
    let ekf := (s.timeModel measurement_pack).Predict
    match measurement_pack.sensor_type_ with
    | SensorType.RADAR =>
      let Hj := env.CalculateJacobian ekf.x_
      { s with
        previous_timestamp_ := measurement_pack.timestamp_
        Hj_ := Hj
        ekf_ := KalmanFilter.UpdateEKF env { ekf with rows := 3, H_ := Hj, R_ := s.R_radar_ }
          measurement_pack.raw_measurements_ }
    | SensorType.LASER =>
      { s with
        previous_timestamp_ := measurement_pack.timestamp_
        ekf_ := KalmanFilter.Update { ekf with rows := 2, H_ := s.H_laser_, R_ := s.R_laser_ }
          measurement_pack.raw_measurements_ }

/-- The controller after a sequence of `ProcessMeasurement` calls, oldest first. -/
def FusionEKF.run (env : Env α) (s : FusionEKF α) (ms : List (MeasurementPackage α)) :
    FusionEKF α :=
  ms.foldl (FusionEKF.ProcessMeasurement env) s

end Model


/-! ## Matrices named in the specification -/

section SpecSide

variable {α : Type} [LinearOrderedField α]

/-- The constant-velocity transition matrix for an elapsed time `d`: ones on the diagonal,
`d` at `(0, 2)` and `(1, 3)`, zero elsewhere. -/
def constantVelocity (d : α) : Matrix (Fin 4) (Fin 4) α :=
  !![1, 0, d, 0;
     0, 1, 0, d;
     0, 0, 1, 0;
     0, 0, 0, 1]

/-- The 4×2 matrix with rows `(dt²/2, 0)`, `(0, dt²/2)`, `(dt, 0)`, `(0, dt)` that carries an
acceleration acting over `dt` into position and velocity. -/
def noiseGain (dt : α) : Matrix (Fin 4) (Fin 2) α :=
  !![dt ^ 2 / 2, 0;
     0, dt ^ 2 / 2;
     dt, 0;
     0, dt]

end SpecSide

/-! ## Observation function and innovation covariance of the specification -/

section Observation

variable {α : Type} [LinearOrderedField α]

/-- Modelled from the spec: the nonlinear observation function of the radar (it lives in
`UpdateEKF`, kalman_filter.cpp is missing): "range = hypot(x,y), bearing = atan2(y,x),
range-rate = (x·vx+y·vy)/range".  `hypot` and `atan2` are the C library functions. -/
def radarObservation (hypot : α → α → α) (atan2 : α → α → α) (x : Fin 4 → α) : Fin 3 → α :=
  let range := hypot (x 0) (x 1)
  ![range, atan2 (x 1) (x 0), (x 0 * x 2 + x 1 * x 3) / range]

/-- Modelled from the spec: the innovation covariance formed by `Update` and `UpdateEKF`
(kalman_filter.cpp is missing): "observation-matrix · covariance ·
observation-matrix-transpose + observation-noise covariance".  It is the matrix `S` that
`KalmanFilter.correct` inverts. -/
def KalmanFilter.innovationCovariance (k : KalmanFilter α) :
    Matrix (Fin k.rows) (Fin k.rows) α :=
  k.H_ * k.P_ * k.H_.transpose + k.R_

end Observation

/-! ## Example data

A concrete environment and controller over `ℚ`, used to instantiate the theorems. -/

section Examples

/-- Example environment over `ℚ`: `cos` and `sin` take their values at bearing 0, the
stand-in for the Jacobian depends on the state it is given. -/
def demoEnv : Env ℚ :=
  { cos := fun _ => 1
    sin := fun _ => 0
    CalculateJacobian := fun x => Matrix.of fun i j => ((i.val : ℚ) + 1) * x j
    h := fun x i => if i = 0 then x 0 else if i = 1 then x 1 else x 2
    normalize := id }

/-- A default-constructed estimator with nothing installed. -/
def demoKalman : KalmanFilter ℚ :=
  { x_ := 0, P_ := 0, F_ := 0, Q_ := 0, rows := 0, H_ := 0, R_ := 0 }

/-- A first laser observation at time 1 s. -/
def demoLaser : MeasurementPackage ℚ :=
  ⟨SensorType.LASER, 1000000, [1, 2]⟩

/-- A radar observation at time 1.5 s. -/
def demoRadar : MeasurementPackage ℚ :=
  ⟨SensorType.RADAR, 1500000, [5, 0, 0]⟩

/-- A laser observation whose timestamp, 0.5 s, is earlier than that of `demoLaser`. -/
def demoLate : MeasurementPackage ℚ :=
  ⟨SensorType.LASER, 500000, [1, 2]⟩

/-- The example controller after its first observation. -/
def demoState : FusionEKF ℚ :=
  (FusionEKF.new demoKalman 0).ProcessMeasurement demoEnv demoLaser

end Examples

/-! ## Frame and unfolding lemmas -/

section Lemmas
variable {α : Type} [LinearOrderedField α]

@[simp]
theorem KalmanFilter.Predict_F (k : KalmanFilter α) : k.Predict.F_ = k.F_ := rfl
@[simp]
theorem KalmanFilter.Predict_Q (k : KalmanFilter α) : k.Predict.Q_ = k.Q_ := rfl
@[simp]
theorem KalmanFilter.correct_F (k : KalmanFilter α) (y : Fin k.rows → α) :
    (k.correct y).F_ = k.F_ := rfl
@[simp]
theorem KalmanFilter.correct_Q (k : KalmanFilter α) (y : Fin k.rows → α) :
    (k.correct y).Q_ = k.Q_ := rfl
@[simp]
theorem KalmanFilter.Update_F (k : KalmanFilter α) (z : List α) :
    (k.Update z).F_ = k.F_ := rfl
@[simp]
theorem KalmanFilter.Update_Q (k : KalmanFilter α) (z : List α) :
    (k.Update z).Q_ = k.Q_ := rfl
@[simp]
theorem KalmanFilter.UpdateEKF_F (env : Env α) (k : KalmanFilter α) (z : List α) :
    (k.UpdateEKF env z).F_ = k.F_ := rfl
@[simp]
theorem KalmanFilter.UpdateEKF_Q (env : Env α) (k : KalmanFilter α) (z : List α) :
    (k.UpdateEKF env z).Q_ = k.Q_ := rfl

theorem FusionEKF.ProcessMeasurement_first (env : Env α) (s : FusionEKF α)
    (mp : MeasurementPackage α) (h : s.is_initialized_ = false) :
    s.ProcessMeasurement env mp =
      { s with
        ekf_ := { s.ekf_ with x_ := (s.ProcessMeasurement env mp).ekf_.x_ }
        previous_timestamp_ := mp.timestamp_
        is_initialized_ := true } := by
  simp [FusionEKF.ProcessMeasurement, h]

theorem FusionEKF.ProcessMeasurement_radar (env : Env α) (s : FusionEKF α)
    (mp : MeasurementPackage α) (h : s.is_initialized_ = true)
    (hr : mp.sensor_type_ = SensorType.RADAR) :
    s.ProcessMeasurement env mp =
      { s with
        previous_timestamp_ := mp.timestamp_
        Hj_ := env.CalculateJacobian (s.timeModel mp).Predict.x_
        ekf_ := KalmanFilter.UpdateEKF env
          { (s.timeModel mp).Predict with
            rows := 3
            H_ := env.CalculateJacobian (s.timeModel mp).Predict.x_
            R_ := s.R_radar_ } mp.raw_measurements_ } := by
  simp [FusionEKF.ProcessMeasurement, h, hr]

theorem FusionEKF.ProcessMeasurement_laser (env : Env α) (s : FusionEKF α)
    (mp : MeasurementPackage α) (h : s.is_initialized_ = true)
    (hr : mp.sensor_type_ ≠ SensorType.RADAR) :
    s.ProcessMeasurement env mp =
      { s with
        previous_timestamp_ := mp.timestamp_
        ekf_ := KalmanFilter.Update
          { (s.timeModel mp).Predict with rows := 2, H_ := s.H_laser_, R_ := s.R_laser_ }
          mp.raw_measurements_ } := by
  have hl : mp.sensor_type_ = SensorType.LASER := by
    cases hm : mp.sensor_type_ <;> simp_all
  simp [FusionEKF.ProcessMeasurement, h, hl]

@[simp]
theorem FusionEKF.ProcessMeasurement_previous_timestamp (env : Env α)
    (s : FusionEKF α) (mp : MeasurementPackage α) :
    (s.ProcessMeasurement env mp).previous_timestamp_ = mp.timestamp_ := by
  unfold FusionEKF.ProcessMeasurement
  split
  · rfl
  · split <;> rfl

@[simp]
theorem FusionEKF.ProcessMeasurement_is_initialized (env : Env α)
    (s : FusionEKF α) (mp : MeasurementPackage α) :
    (s.ProcessMeasurement env mp).is_initialized_ = true := by
  unfold FusionEKF.ProcessMeasurement
  split
  · rfl
  · rename_i h
    split <;> simpa using h

theorem FusionEKF.ProcessMeasurement_F_first (env : Env α) (s : FusionEKF α)
    (mp : MeasurementPackage α) (h : s.is_initialized_ = false) :
    (s.ProcessMeasurement env mp).ekf_.F_ = s.ekf_.F_ := by
  rw [FusionEKF.ProcessMeasurement_first env s mp h]

theorem FusionEKF.ProcessMeasurement_F (env : Env α) (s : FusionEKF α)
    (mp : MeasurementPackage α) (h : s.is_initialized_ = true) :
    (s.ProcessMeasurement env mp).ekf_.F_ =
      setCoeff (setCoeff s.ekf_.F_ 0 2 (s.dt mp)) 1 3 (s.dt mp) := by
  cases hm : mp.sensor_type_
  · rw [FusionEKF.ProcessMeasurement_laser env s mp h (by simp [hm])]; rfl
  · rw [FusionEKF.ProcessMeasurement_radar env s mp h hm]; rfl

theorem FusionEKF.ProcessMeasurement_Q (env : Env α) (s : FusionEKF α)
    (mp : MeasurementPackage α) (h : s.is_initialized_ = true) :
    (s.ProcessMeasurement env mp).ekf_.Q_ = processNoise (s.dt mp) := by
  cases hm : mp.sensor_type_
  · rw [FusionEKF.ProcessMeasurement_laser env s mp h (by simp [hm])]; rfl
  · rw [FusionEKF.ProcessMeasurement_radar env s mp h hm]; rfl

@[simp]
theorem FusionEKF.run_nil (env : Env α) (s : FusionEKF α) : s.run env [] = s := rfl

@[simp]
theorem FusionEKF.run_cons (env : Env α) (s : FusionEKF α) (mp : MeasurementPackage α)
    (ms : List (MeasurementPackage α)) :
    s.run env (mp :: ms) = (s.ProcessMeasurement env mp).run env ms := rfl

theorem FusionEKF.run_append (env : Env α) (s : FusionEKF α)
    (ms ms2 : List (MeasurementPackage α)) :
    s.run env (ms ++ ms2) = (s.run env ms).run env ms2 := by
  simp [FusionEKF.run, List.foldl_append]

theorem FusionEKF.run_concat (env : Env α) (s : FusionEKF α)
    (ms : List (MeasurementPackage α)) (mp : MeasurementPackage α) :
    s.run env (ms ++ [mp]) = (s.run env ms).ProcessMeasurement env mp := by
  rw [FusionEKF.run_append]; rfl

end Lemmas
/-! ## Process noise, constant-velocity shape and elapsed time -/

section Algebra
variable {α : Type} [LinearOrderedField α]

theorem processNoise_apply (dt : α) (i j : Fin 4) :
    processNoise dt i j =
      (!![dt ^ 4 / 4 * 9, 0, dt ^ 3 / 2 * 9, 0;
         0, dt ^ 4 / 4 * 9, 0, dt ^ 3 / 2 * 9;
         dt ^ 3 / 2 * 9, 0, dt ^ 2 * 9, 0;
         0, dt ^ 3 / 2 * 9, 0, dt ^ 2 * 9] : Matrix (Fin 4) (Fin 4) α) i j := by
  unfold processNoise
  fin_cases i <;> fin_cases j <;>
    simp only [Matrix.of_apply, Matrix.cons_val', Matrix.cons_val_zero, Matrix.cons_val_one,
      Matrix.head_cons, Matrix.cons_val_two, Matrix.tail_cons, Matrix.cons_val_three,
      Matrix.empty_val', Matrix.cons_val_fin_one, Fin.zero_eta, Fin.mk_one, Fin.reduceFinMk] <;>
    norm_num <;> ring

theorem processNoise_eq (dt : α) :
    processNoise dt =
      !![dt ^ 4 / 4 * 9, 0, dt ^ 3 / 2 * 9, 0;
         0, dt ^ 4 / 4 * 9, 0, dt ^ 3 / 2 * 9;
         dt ^ 3 / 2 * 9, 0, dt ^ 2 * 9, 0;
         0, dt ^ 3 / 2 * 9, 0, dt ^ 2 * 9] := by
  ext i j
  exact processNoise_apply dt i j

theorem processNoise_factor (dt : α) :
    processNoise dt =
      noiseGain dt * Matrix.diagonal (![9, 9] : Fin 2 → α) * (noiseGain dt).transpose := by
  ext i j
  rw [processNoise_apply]
  fin_cases i <;> fin_cases j <;>
    simp only [noiseGain, Matrix.mul_apply, Fin.sum_univ_two, Matrix.diagonal_apply,
      Matrix.transpose_apply, Matrix.of_apply, Matrix.cons_val', Matrix.cons_val_zero, Matrix.cons_val_one,
      Matrix.head_cons, Matrix.cons_val_two, Matrix.tail_cons, Matrix.cons_val_three,
      Matrix.empty_val', Matrix.cons_val_fin_one, Fin.zero_eta, Fin.mk_one, Fin.reduceFinMk,
      Fin.isValue, Fin.reduceEq, if_true, if_false, Matrix.vecHead] <;>
    ring

theorem processNoise_zero : processNoise (0 : α) = 0 := by
  ext i j
  rw [processNoise_apply]
  fin_cases i <;> fin_cases j <;>
    simp only [Matrix.zero_apply, Matrix.of_apply, Matrix.cons_val', Matrix.cons_val_zero, Matrix.cons_val_one,
      Matrix.head_cons, Matrix.cons_val_two, Matrix.tail_cons, Matrix.cons_val_three,
      Matrix.empty_val', Matrix.cons_val_fin_one, Fin.zero_eta, Fin.mk_one, Fin.reduceFinMk] <;>
    norm_num

theorem setCoeff_constantVelocity (d e : α) :
    setCoeff (setCoeff (constantVelocity d) 0 2 e) 1 3 e = constantVelocity e := by
  ext i j
  fin_cases i <;> fin_cases j <;>
    simp only [setCoeff, constantVelocity, Matrix.vecHead, Matrix.of_apply, Matrix.cons_val', Matrix.cons_val_zero, Matrix.cons_val_one,
      Matrix.head_cons, Matrix.cons_val_two, Matrix.tail_cons, Matrix.cons_val_three,
      Matrix.empty_val', Matrix.cons_val_fin_one, Fin.zero_eta, Fin.mk_one, Fin.reduceFinMk,
      Fin.isValue, Fin.reduceEq, and_self, and_true, and_false, false_and, true_and,
      if_true, if_false]

theorem constantVelocity_zero : constantVelocity (0 : α) = 1 := by
  ext i j
  fin_cases i <;> fin_cases j <;>
    simp only [constantVelocity, Matrix.one_apply, Matrix.vecHead, Matrix.of_apply, Matrix.cons_val', Matrix.cons_val_zero, Matrix.cons_val_one,
      Matrix.head_cons, Matrix.cons_val_two, Matrix.tail_cons, Matrix.cons_val_three,
      Matrix.empty_val', Matrix.cons_val_fin_one, Fin.zero_eta, Fin.mk_one, Fin.reduceFinMk,
      Fin.isValue, Fin.reduceEq, if_true, if_false]

theorem FusionEKF.new_F (ekf0 : KalmanFilter α) (Hj0 : Matrix (Fin 3) (Fin 4) α) :
    (FusionEKF.new ekf0 Hj0).ekf_.F_ = constantVelocity 1 := rfl

/-- Along every run from construction the transition matrix has constant-velocity shape. -/
theorem FusionEKF.run_F_shape (env : Env α) (ekf0 : KalmanFilter α)
    (Hj0 : Matrix (Fin 3) (Fin 4) α) (ms : List (MeasurementPackage α)) :
    ∃ d, ((FusionEKF.new ekf0 Hj0).run env ms).ekf_.F_ = constantVelocity d := by
  induction ms using List.reverseRecOn with
  | nil => exact ⟨1, rfl⟩
  | append_singleton ms mp ih =>
    obtain ⟨d, hd⟩ := ih
    rw [FusionEKF.run_concat]
    cases hi : ((FusionEKF.new ekf0 Hj0).run env ms).is_initialized_
    · exact ⟨d, by rw [FusionEKF.ProcessMeasurement_F_first _ _ _ hi, hd]⟩
    · exact ⟨_, by rw [FusionEKF.ProcessMeasurement_F _ _ _ hi, hd, setCoeff_constantVelocity]⟩

theorem FusionEKF.dt_nonneg_iff (s : FusionEKF α) (mp : MeasurementPackage α) :
    0 ≤ s.dt mp ↔ s.previous_timestamp_ ≤ mp.timestamp_ := by
  unfold FusionEKF.dt
  rw [div_nonneg_iff]
  constructor
  · rintro (⟨h, -⟩ | ⟨-, h⟩)
    · have := Int.cast_nonneg.mp h
      omega
    · norm_num at h
  · intro h
    left
    exact ⟨Int.cast_nonneg.mpr (by omega), by norm_num⟩

end Algebra

/-! ## Positive semidefiniteness over the reals -/

section Definite

theorem initial_covariance_posSemidef :
    (!![1, 0, 0, 0; 0, 1, 0, 0; 0, 0, 1000, 0; 0, 0, 0, 1000] :
      Matrix (Fin 4) (Fin 4) ℝ).PosSemidef := by
  have h : (!![1, 0, 0, 0; 0, 1, 0, 0; 0, 0, 1000, 0; 0, 0, 0, 1000] :
      Matrix (Fin 4) (Fin 4) ℝ) = Matrix.diagonal ![1, 1, 1000, 1000] := by
    ext i j
    fin_cases i <;> fin_cases j <;>
      simp only [Matrix.diagonal_apply, Matrix.of_apply, Matrix.cons_val', Matrix.cons_val_zero,
        Matrix.cons_val_one, Matrix.head_cons, Matrix.cons_val_two, Matrix.tail_cons,
        Matrix.cons_val_three, Matrix.empty_val', Matrix.cons_val_fin_one, Fin.zero_eta,
        Fin.mk_one, Fin.reduceFinMk, Fin.isValue, Fin.reduceEq, if_true, if_false,
        Matrix.vecHead]
  rw [h]
  apply Matrix.PosSemidef.diagonal
  intro i
  fin_cases i <;> simp

theorem processNoise_posSemidef (dt : ℝ) : (processNoise dt).PosSemidef := by
  rw [processNoise_factor]
  have hD : (Matrix.diagonal (![9, 9] : Fin 2 → ℝ)).PosSemidef := by
    apply Matrix.PosSemidef.diagonal
    intro i
    fin_cases i <;> simp
  simpa using hD.mul_mul_conjTranspose_same (noiseGain dt)

theorem KalmanFilter.Predict_posSemidef (k : KalmanFilter ℝ) (hP : k.P_.PosSemidef)
    (hQ : k.Q_.PosSemidef) : k.Predict.P_.PosSemidef := by
  show (k.F_ * k.P_ * k.F_.transpose + k.Q_).PosSemidef
  have h1 : (k.F_ * k.P_ * k.F_.transpose).PosSemidef := by
    simpa using hP.mul_mul_conjTranspose_same k.F_
  exact h1.add hQ

theorem isSymm_of_posSemidef {M : Matrix (Fin 4) (Fin 4) ℝ} (h : M.PosSemidef) : M.IsSymm := by
  have := h.isHermitian
  simpa [Matrix.IsHermitian, Matrix.IsSymm] using this

end Definite

/-! ## Fixed configuration and lifecycle -/

section Config
variable {α : Type} [LinearOrderedField α]

theorem FusionEKF.ProcessMeasurement_config (env : Env α) (s : FusionEKF α)
    (mp : MeasurementPackage α) :
    (s.ProcessMeasurement env mp).R_laser_ = s.R_laser_ ∧
    (s.ProcessMeasurement env mp).R_radar_ = s.R_radar_ ∧
    (s.ProcessMeasurement env mp).H_laser_ = s.H_laser_ := by
  unfold FusionEKF.ProcessMeasurement
  split
  · exact ⟨rfl, rfl, rfl⟩
  · split <;> exact ⟨rfl, rfl, rfl⟩

theorem FusionEKF.run_config (env : Env α) (s : FusionEKF α)
    (ms : List (MeasurementPackage α)) :
    (s.run env ms).R_laser_ = s.R_laser_ ∧
    (s.run env ms).R_radar_ = s.R_radar_ ∧
    (s.run env ms).H_laser_ = s.H_laser_ := by
  induction ms generalizing s with
  | nil => exact ⟨rfl, rfl, rfl⟩
  | cons mp ms ih =>
    rw [FusionEKF.run_cons]
    obtain ⟨h1, h2, h3⟩ := ih (s.ProcessMeasurement env mp)
    obtain ⟨g1, g2, g3⟩ := FusionEKF.ProcessMeasurement_config env s mp
    exact ⟨h1.trans g1, h2.trans g2, h3.trans g3⟩

theorem FusionEKF.new_R_laser (ekf0 : KalmanFilter α) (Hj0 : Matrix (Fin 3) (Fin 4) α) :
    (FusionEKF.new ekf0 Hj0).R_laser_ = Matrix.diagonal ![0.0225, 0.0225] := by
  ext i j
  fin_cases i <;> fin_cases j <;>
    simp only [FusionEKF.new, Matrix.diagonal_apply, Matrix.of_apply, Matrix.cons_val',
      Matrix.cons_val_zero, Matrix.cons_val_one, Matrix.head_cons, Matrix.empty_val',
      Matrix.cons_val_fin_one, Fin.zero_eta, Fin.mk_one, Fin.isValue, Fin.reduceEq,
      if_true, if_false, Matrix.vecHead]

theorem FusionEKF.new_R_radar (ekf0 : KalmanFilter α) (Hj0 : Matrix (Fin 3) (Fin 4) α) :
    (FusionEKF.new ekf0 Hj0).R_radar_ = Matrix.diagonal ![0.09, 0.0009, 0.09] := by
  ext i j
  fin_cases i <;> fin_cases j <;>
    simp only [FusionEKF.new, Matrix.diagonal_apply, Matrix.of_apply, Matrix.cons_val',
      Matrix.cons_val_zero, Matrix.cons_val_one, Matrix.head_cons, Matrix.cons_val_two,
      Matrix.tail_cons, Matrix.empty_val', Matrix.cons_val_fin_one, Fin.zero_eta, Fin.mk_one,
      Fin.reduceFinMk, Fin.isValue, Fin.reduceEq, if_true, if_false, Matrix.vecHead]

theorem FusionEKF.new_H_laser (ekf0 : KalmanFilter α) (Hj0 : Matrix (Fin 3) (Fin 4) α) :
    (FusionEKF.new ekf0 Hj0).H_laser_ = !![1, 0, 0, 0; 0, 1, 0, 0] := by
  ext i j
  fin_cases i <;> fin_cases j <;>
    simp only [FusionEKF.new, Matrix.of_apply, Matrix.cons_val',
      Matrix.cons_val_zero, Matrix.cons_val_one, Matrix.head_cons, Matrix.cons_val_two,
      Matrix.tail_cons, Matrix.cons_val_three, Matrix.empty_val', Matrix.cons_val_fin_one,
      Fin.zero_eta, Fin.mk_one, Fin.reduceFinMk, Fin.isValue, Matrix.vecHead] <;>
    norm_num

theorem FusionEKF.run_is_initialized (env : Env α) (s : FusionEKF α)
    (ms : List (MeasurementPackage α)) (h : ms ≠ []) :
    (s.run env ms).is_initialized_ = true := by
  obtain ⟨pre, a, rfl⟩ : ∃ pre a, ms = pre ++ [a] :=
    ⟨ms.dropLast, ms.getLast h, (List.dropLast_append_getLast h).symm⟩
  rw [FusionEKF.run_concat]
  simp

end Config

/-! ## Polar coordinates over the reals -/

section Radar

variable {α : Type} [LinearOrderedField α]

theorem FusionEKF.new_radar_state (env : Env α) (ekf0 : KalmanFilter α)
    (Hj0 : Matrix (Fin 3) (Fin 4) α) (t : Int) (rho phi rho_dot : α) :
    ((FusionEKF.new ekf0 Hj0).ProcessMeasurement env
        ⟨SensorType.RADAR, t, [rho, phi, rho_dot]⟩).ekf_.x_
      = ![rho * env.cos phi, rho * env.sin phi, 0, 0] := by
  simp [FusionEKF.ProcessMeasurement, FusionEKF.new, coeff]
  norm_num

theorem hypot_polar (rho phi : ℝ) (h : 0 ≤ rho) :
    Real.sqrt ((rho * Real.cos phi) ^ 2 + (rho * Real.sin phi) ^ 2) = rho := by
  have : (rho * Real.cos phi) ^ 2 + (rho * Real.sin phi) ^ 2 = rho ^ 2 := by
    have hcs := Real.cos_sq_add_sin_sq phi
    calc (rho * Real.cos phi) ^ 2 + (rho * Real.sin phi) ^ 2
        = rho ^ 2 * (Real.cos phi ^ 2 + Real.sin phi ^ 2) := by ring
      _ = rho ^ 2 := by rw [hcs, mul_one]
  rw [this, Real.sqrt_sq h]

theorem atan2_polar (rho phi : ℝ) (h : 0 < rho) (hphi : phi ∈ Set.Ioc (-Real.pi) Real.pi) :
    Complex.arg ⟨rho * Real.cos phi, rho * Real.sin phi⟩ = phi := by
  have : (⟨rho * Real.cos phi, rho * Real.sin phi⟩ : ℂ)
      = (rho : ℂ) * (Complex.cos phi + Complex.sin phi * Complex.I) := by
    apply Complex.ext
    · simp [← Complex.ofReal_cos, ← Complex.ofReal_sin]
    · simp [← Complex.ofReal_cos, ← Complex.ofReal_sin]
  rw [this, Complex.arg_mul_cos_add_sin_mul_I h hphi]

end Radar

/-! ## Innovation covariance and the covariance update over the reals -/

section Innovation

theorem inverse_mul_self {n : Nat} (S : Matrix (Fin n) (Fin n) ℝ) (h : S.det ≠ 0) :
    inverse S * S = 1 := by
  unfold inverse
  rw [Matrix.smul_mul, Matrix.adjugate_mul, smul_smul, inv_mul_cancel₀ h, one_smul]

theorem mul_inverse_self {n : Nat} (S : Matrix (Fin n) (Fin n) ℝ) (h : S.det ≠ 0) :
    S * inverse S = 1 := by
  unfold inverse
  rw [Matrix.mul_smul, Matrix.mul_adjugate, smul_smul, inv_mul_cancel₀ h, one_smul]

/-- The Joseph form of the covariance update: with a gain `K` that satisfies
`K * S = P * Hᵀ`, `(1 - K H) P = (1 - K H) P (1 - K H)ᵀ + K R Kᵀ`. -/
theorem joseph_form {n : Nat} (P : Matrix (Fin 4) (Fin 4) ℝ) (H : Matrix (Fin n) (Fin 4) ℝ)
    (R : Matrix (Fin n) (Fin n) ℝ) (K : Matrix (Fin 4) (Fin n) ℝ)
    (hK : K * (H * P * H.transpose + R) = P * H.transpose) :
    (1 - K * H) * P
      = (1 - K * H) * P * (1 - K * H).transpose + K * R * K.transpose := by
  have hKR : (1 - K * H) * P * H.transpose = K * R := by
    rw [Matrix.sub_mul, Matrix.sub_mul, Matrix.one_mul, ← hK, Matrix.mul_add]
    simp [Matrix.mul_assoc]
  rw [Matrix.transpose_sub, Matrix.transpose_one, Matrix.transpose_mul, Matrix.mul_sub,
    Matrix.mul_one, ← Matrix.mul_assoc ((1 - K * H) * P) H.transpose K.transpose, hKR,
    sub_add_cancel]

theorem R_laser_posDef : (Matrix.diagonal ![0.0225, 0.0225] : Matrix (Fin 2) (Fin 2) ℝ).PosDef := by
  apply Matrix.PosDef.diagonal
  intro i
  fin_cases i <;> norm_num

theorem R_radar_posDef :
    (Matrix.diagonal ![0.09, 0.0009, 0.09] : Matrix (Fin 3) (Fin 3) ℝ).PosDef := by
  apply Matrix.PosDef.diagonal
  intro i
  fin_cases i <;> norm_num

theorem innovation_posDef {n : Nat} (P : Matrix (Fin 4) (Fin 4) ℝ)
    (H : Matrix (Fin n) (Fin 4) ℝ) (R : Matrix (Fin n) (Fin n) ℝ)
    (hP : P.PosSemidef) (hR : R.PosDef) : (H * P * H.transpose + R).PosDef := by
  have h1 : (H * P * H.transpose).PosSemidef := by
    simpa using hP.mul_mul_conjTranspose_same H
  exact Matrix.PosDef.posSemidef_add h1 hR

theorem KalmanFilter.innovationCovariance_posDef (k : KalmanFilter ℝ)
    (hP : k.P_.PosSemidef) (hR : k.R_.PosDef) : k.innovationCovariance.PosDef :=
  innovation_posDef k.P_ k.H_ k.R_ hP hR

theorem KalmanFilter.correct_posSemidef (k : KalmanFilter ℝ) (y : Fin k.rows → ℝ)
    (hP : k.P_.PosSemidef) (hR : k.R_.PosDef) : (k.correct y).P_.PosSemidef := by
  have hS := innovation_posDef k.P_ k.H_ k.R_ hP hR
  have hK : k.P_ * k.H_.transpose * inverse (k.H_ * k.P_ * k.H_.transpose + k.R_)
      * (k.H_ * k.P_ * k.H_.transpose + k.R_) = k.P_ * k.H_.transpose := by
    rw [Matrix.mul_assoc, inverse_mul_self _ hS.det_pos.ne', Matrix.mul_one]
  show ((1 - k.P_ * k.H_.transpose * inverse (k.H_ * k.P_ * k.H_.transpose + k.R_) * k.H_)
    * k.P_).PosSemidef
  rw [joseph_form k.P_ k.H_ k.R_ _ hK]
  have h1 := hP.mul_mul_conjTranspose_same
    (1 - k.P_ * k.H_.transpose * inverse (k.H_ * k.P_ * k.H_.transpose + k.R_) * k.H_)
  have h2 := hR.posSemidef.mul_mul_conjTranspose_same
    (k.P_ * k.H_.transpose * inverse (k.H_ * k.P_ * k.H_.transpose + k.R_))
  simp only [Matrix.conjTranspose_eq_transpose_of_trivial] at h1 h2
  exact h1.add h2

theorem FusionEKF.ProcessMeasurement_posSemidef (env : Env ℝ) (s : FusionEKF ℝ)
    (mp : MeasurementPackage ℝ) (hP : s.ekf_.P_.PosSemidef) (hl : s.R_laser_.PosDef)
    (hr : s.R_radar_.PosDef) : (s.ProcessMeasurement env mp).ekf_.P_.PosSemidef := by
  cases hi : s.is_initialized_
  · rw [FusionEKF.ProcessMeasurement_first env s mp hi]
    exact hP
  · have hpred : (s.timeModel mp).Predict.P_.PosSemidef :=
      KalmanFilter.Predict_posSemidef _ hP (processNoise_posSemidef _)
    by_cases hm : mp.sensor_type_ = SensorType.RADAR
    · rw [FusionEKF.ProcessMeasurement_radar env s mp hi hm]
      exact KalmanFilter.correct_posSemidef _ _ hpred hr
    · rw [FusionEKF.ProcessMeasurement_laser env s mp hi hm]
      exact KalmanFilter.correct_posSemidef _ _ hpred hl

/-- Along every run from construction the covariance is positive-semidefinite. -/
theorem FusionEKF.run_posSemidef (env : Env ℝ) (ekf0 : KalmanFilter ℝ)
    (Hj0 : Matrix (Fin 3) (Fin 4) ℝ) (ms : List (MeasurementPackage ℝ)) :
    ((FusionEKF.new ekf0 Hj0).run env ms).ekf_.P_.PosSemidef := by
  induction ms using List.reverseRecOn with
  | nil => exact initial_covariance_posSemidef
  | append_singleton ms mp ih =>
    rw [FusionEKF.run_concat]
    obtain ⟨h1, h2, -⟩ := FusionEKF.run_config env (FusionEKF.new ekf0 Hj0) ms
    apply FusionEKF.ProcessMeasurement_posSemidef env _ mp ih
    · rw [h1, FusionEKF.new_R_laser]; exact R_laser_posDef
    · rw [h2, FusionEKF.new_R_radar]; exact R_radar_posDef

theorem isSymm_of_posDef {n : Nat} {M : Matrix (Fin n) (Fin n) ℝ} (h : M.PosDef) :
    M.IsSymm := by
  have := h.isHermitian
  simpa [Matrix.IsHermitian, Matrix.IsSymm] using this

end Innovation

/-! ## The claims -/

section Claims
variable {α : Type} [LinearOrderedField α]

/-- C1: on a freshly constructed controller, a first LASER observation with raw values
`(x, y)` sets the state vector to exactly `[x, y, 0, 0]`; in particular `(1.0, 2.0)` gives
`[1.0, 2.0, 0.0, 0.0]`. -/
theorem laser_first_observation_state (env : Env α) (ekf0 : KalmanFilter α)
    (Hj0 : Matrix (Fin 3) (Fin 4) α) (t : Int) :
    (∀ x y : α,
      ((FusionEKF.new ekf0 Hj0).ProcessMeasurement env
        ⟨SensorType.LASER, t, [x, y]⟩).ekf_.x_ = ![x, y, 0, 0]) ∧
    ((FusionEKF.new ekf0 Hj0).ProcessMeasurement env
        ⟨SensorType.LASER, t, [1.0, 2.0]⟩).ekf_.x_ = ![1.0, 2.0, 0.0, 0.0] := by
  constructor
  · intro x y
    simp [FusionEKF.ProcessMeasurement, FusionEKF.new, coeff]
    norm_num
  · simp [FusionEKF.ProcessMeasurement, FusionEKF.new, coeff]

/-- C2: on a freshly constructed controller, a first RADAR observation with raw values
`(rho, phi, rho_dot)` sets the state vector to exactly `[rho * cos phi, rho * sin phi, 0, 0]`,
for whatever `cos` and `sin` the environment supplies and in particular for the real cosine
and sine; with these, `(5.0, 0.0, 0.0)` gives `[5.0, 0.0, 0.0, 0.0]`. -/
theorem radar_first_observation_state (ekf0 : KalmanFilter ℝ)
    (Hj0 : Matrix (Fin 3) (Fin 4) ℝ) (t : Int) (e : Env ℝ) :
    (∀ (env : Env α) (k0 : KalmanFilter α) (J0 : Matrix (Fin 3) (Fin 4) α)
        (rho phi rho_dot : α),
      ((FusionEKF.new k0 J0).ProcessMeasurement env
        ⟨SensorType.RADAR, t, [rho, phi, rho_dot]⟩).ekf_.x_
        = ![rho * env.cos phi, rho * env.sin phi, 0, 0]) ∧
    (∀ rho phi rho_dot : ℝ,
      ((FusionEKF.new ekf0 Hj0).ProcessMeasurement { e with cos := Real.cos, sin := Real.sin }
        ⟨SensorType.RADAR, t, [rho, phi, rho_dot]⟩).ekf_.x_
        = ![rho * Real.cos phi, rho * Real.sin phi, 0, 0]) ∧
    ((FusionEKF.new ekf0 Hj0).ProcessMeasurement { e with cos := Real.cos, sin := Real.sin }
        ⟨SensorType.RADAR, t, [5.0, 0.0, 0.0]⟩).ekf_.x_ = ![5.0, 0.0, 0.0, 0.0] := by
  refine ⟨?_, ?_, ?_⟩
  · intro env k0 J0 rho phi rho_dot
    simp [FusionEKF.ProcessMeasurement, FusionEKF.new, coeff]
    norm_num
  · intro rho phi rho_dot
    simp [FusionEKF.ProcessMeasurement, FusionEKF.new, coeff]
    norm_num
  · simp [FusionEKF.ProcessMeasurement, FusionEKF.new, coeff]
    norm_num

/-- C3: in the Initialized state one call is one `Predict` (on the estimator with the
refreshed `F_` and `Q_`) followed by one update chosen by the sensor kind.  For RADAR the
installed observation matrix is the Jacobian at the post-predict state `F_ * x_`, the
installed noise is `R_radar_`, and the update is `UpdateEKF`; for any other kind the
installed pair is `H_laser_`, `R_laser_` and the update is `Update`. -/
theorem initialized_call_is_predict_then_update (env : Env α) (s : FusionEKF α)
    (mp : MeasurementPackage α) (h : s.is_initialized_ = true) :
    (s.timeModel mp).Predict.x_ = (s.timeModel mp).F_.mulVec s.ekf_.x_ ∧
    (mp.sensor_type_ = SensorType.RADAR →
      (s.ProcessMeasurement env mp).ekf_ =
        KalmanFilter.UpdateEKF env
          { (s.timeModel mp).Predict with
            rows := 3
            H_ := env.CalculateJacobian ((s.timeModel mp).F_.mulVec s.ekf_.x_)
            R_ := s.R_radar_ } mp.raw_measurements_ ∧
      (s.ProcessMeasurement env mp).Hj_ =
        env.CalculateJacobian ((s.timeModel mp).F_.mulVec s.ekf_.x_)) ∧
    (mp.sensor_type_ ≠ SensorType.RADAR →
      (s.ProcessMeasurement env mp).ekf_ =
        KalmanFilter.Update
          { (s.timeModel mp).Predict with rows := 2, H_ := s.H_laser_, R_ := s.R_laser_ }
          mp.raw_measurements_) := by
  refine ⟨rfl, ?_, ?_⟩
  · intro hr
    rw [FusionEKF.ProcessMeasurement_radar env s mp h hr]
    exact ⟨rfl, rfl⟩
  · intro hr
    rw [FusionEKF.ProcessMeasurement_laser env s mp h hr]

/-- Witness for C3: a radar record processed by the initialized example controller. -/
theorem initialized_call_is_predict_then_update_witness :
    demoState.is_initialized_ = true ∧
    (demoState.ProcessMeasurement demoEnv demoRadar).Hj_ =
      demoEnv.CalculateJacobian ((demoState.timeModel demoRadar).F_.mulVec demoState.ekf_.x_) :=
  ⟨rfl, ((initialized_call_is_predict_then_update demoEnv demoState demoRadar rfl).2.1 rfl).2⟩

/-- C4: for observations `a` then `b` at the end of any sequence processed from
construction (so `b` is at least the second and `a` may be the initializing one), the
elapsed time used for `b` is `(t_b - t_a) / 1000000`; it is what the call writes into
`F_(0, 2)` and `F_(1, 3)` and builds `Q_` from, because every call records its observation
timestamp as the new reference time. -/
theorem elapsed_time_since_preceding_observation (env : Env α) (ekf0 : KalmanFilter α)
    (Hj0 : Matrix (Fin 3) (Fin 4) α) (pre : List (MeasurementPackage α))
    (a b : MeasurementPackage α) :
    (∀ (s : FusionEKF α) (mp : MeasurementPackage α),
      (s.ProcessMeasurement env mp).previous_timestamp_ = mp.timestamp_) ∧
    (((FusionEKF.new ekf0 Hj0).run env (pre ++ [a])).dt b
      = ((b.timestamp_ - a.timestamp_ : Int) : α) / 1000000) ∧
    (((FusionEKF.new ekf0 Hj0).run env (pre ++ [a, b])).ekf_.F_ 0 2
      = ((b.timestamp_ - a.timestamp_ : Int) : α) / 1000000) ∧
    (((FusionEKF.new ekf0 Hj0).run env (pre ++ [a, b])).ekf_.F_ 1 3
      = ((b.timestamp_ - a.timestamp_ : Int) : α) / 1000000) ∧
    (((FusionEKF.new ekf0 Hj0).run env (pre ++ [a, b])).ekf_.Q_
      = processNoise (((b.timestamp_ - a.timestamp_ : Int) : α) / 1000000)) := by
  have hdt : ((FusionEKF.new ekf0 Hj0).run env (pre ++ [a])).dt b
      = ((b.timestamp_ - a.timestamp_ : Int) : α) / 1000000 := by
    rw [FusionEKF.run_concat]
    simp [FusionEKF.dt]
  have hrun : (FusionEKF.new ekf0 Hj0).run env (pre ++ [a, b])
      = ((FusionEKF.new ekf0 Hj0).run env (pre ++ [a])).ProcessMeasurement env b := by
    rw [← FusionEKF.run_concat]; simp
  have hinit : ((FusionEKF.new ekf0 Hj0).run env (pre ++ [a])).is_initialized_ = true := by
    rw [FusionEKF.run_concat]; simp
  refine ⟨fun s mp => by simp, hdt, ?_, ?_, ?_⟩
  · rw [hrun, FusionEKF.ProcessMeasurement_F _ _ _ hinit, hdt]
    simp [setCoeff]
  · rw [hrun, FusionEKF.ProcessMeasurement_F _ _ _ hinit, hdt]
    simp [setCoeff]
  · rw [hrun, FusionEKF.ProcessMeasurement_Q _ _ _ hinit, hdt]

/-- C7: the first observation, of either kind, triggers no predict and no update: the
covariance is still `diag(1, 1, 1000, 1000)`, the transition matrix is still the one of
the constructor, no member of the estimator other than the state vector has changed, the
timestamp of the observation is recorded and the controller is initialized. -/
theorem first_observation_only_initializes (env : Env α) (ekf0 : KalmanFilter α)
    (Hj0 : Matrix (Fin 3) (Fin 4) α) (mp : MeasurementPackage α) :
    ((FusionEKF.new ekf0 Hj0).ProcessMeasurement env mp).ekf_.P_
      = !![1, 0, 0, 0; 0, 1, 0, 0; 0, 0, 1000, 0; 0, 0, 0, 1000] ∧
    ((FusionEKF.new ekf0 Hj0).ProcessMeasurement env mp).ekf_.F_
      = !![1, 0, 1, 0; 0, 1, 0, 1; 0, 0, 1, 0; 0, 0, 0, 1] ∧
    ((FusionEKF.new ekf0 Hj0).ProcessMeasurement env mp).ekf_
      = { (FusionEKF.new ekf0 Hj0).ekf_ with
          x_ := ((FusionEKF.new ekf0 Hj0).ProcessMeasurement env mp).ekf_.x_ } ∧
    ((FusionEKF.new ekf0 Hj0).ProcessMeasurement env mp).previous_timestamp_
      = mp.timestamp_ ∧
    ((FusionEKF.new ekf0 Hj0).ProcessMeasurement env mp).is_initialized_ = true := by
  have h0 : (FusionEKF.new ekf0 Hj0).is_initialized_ = false := rfl
  refine ⟨?_, ?_, ?_, by simp, by simp⟩
  · rw [FusionEKF.ProcessMeasurement_first env _ mp h0]; rfl
  · rw [FusionEKF.ProcessMeasurement_first env _ mp h0]; rfl
  · conv_lhs => rw [FusionEKF.ProcessMeasurement_first env _ mp h0]
/-- C5 (as stated, refuted): for the initialized example controller, whose reference time
is 1 s, an observation stamped 0.5 s writes the negative elapsed time `-1/2` into
`F_(0, 2)` and `F_(1, 3)` and builds `Q_` from it (`Q_(0, 2) = -9/16`): nothing clamps. -/
theorem negative_elapsed_time_is_not_clamped :
    demoState.is_initialized_ = true ∧
    demoLate.timestamp_ < demoState.previous_timestamp_ ∧
    (demoState.ProcessMeasurement demoEnv demoLate).ekf_.F_ 0 2 = -1 / 2 ∧
    (demoState.ProcessMeasurement demoEnv demoLate).ekf_.F_ 1 3 = -1 / 2 ∧
    (demoState.ProcessMeasurement demoEnv demoLate).ekf_.Q_ 0 2 = -9 / 16 ∧
    ¬ (0 ≤ (demoState.ProcessMeasurement demoEnv demoLate).ekf_.F_ 0 2) := by
  have hi : demoState.is_initialized_ = true := rfl
  have hp : demoState.previous_timestamp_ = 1000000 := rfl
  have hdt : demoState.dt demoLate = -1 / 2 := by
    simp only [FusionEKF.dt, hp, demoLate]
    norm_num
  have hF := FusionEKF.ProcessMeasurement_F demoEnv demoState demoLate hi
  have hQ := FusionEKF.ProcessMeasurement_Q demoEnv demoState demoLate hi
  rw [hdt] at hF hQ
  refine ⟨hi, by rw [hp]; decide, ?_, ?_, ?_, ?_⟩
  · rw [hF]; simp [setCoeff]
  · rw [hF]; simp [setCoeff]
  · rw [hQ, processNoise_apply]
    simp only [Matrix.of_apply, Matrix.cons_val', Matrix.cons_val_zero, Matrix.cons_val_two,
      Matrix.head_cons, Matrix.tail_cons, Matrix.empty_val', Matrix.cons_val_fin_one]
    norm_num
  · rw [hF]
    simp only [setCoeff, Matrix.of_apply]
    norm_num

/-- C5 (amended): in the Initialized state the elapsed time written into `F_(0, 2)` and
`F_(1, 3)` and used to build `Q_` is exactly `(timestamp - previous_timestamp) / 1000000`,
unclamped; it is non-negative exactly when the timestamp is not earlier than the last
recorded one. -/
theorem elapsed_time_enters_unclamped (env : Env α) (s : FusionEKF α)
    (mp : MeasurementPackage α) (h : s.is_initialized_ = true) :
    (s.ProcessMeasurement env mp).ekf_.F_ 0 2
      = ((mp.timestamp_ - s.previous_timestamp_ : Int) : α) / 1000000 ∧
    (s.ProcessMeasurement env mp).ekf_.F_ 1 3
      = ((mp.timestamp_ - s.previous_timestamp_ : Int) : α) / 1000000 ∧
    (s.ProcessMeasurement env mp).ekf_.Q_
      = processNoise (((mp.timestamp_ - s.previous_timestamp_ : Int) : α) / 1000000) ∧
    (0 ≤ (s.ProcessMeasurement env mp).ekf_.F_ 0 2
      ↔ s.previous_timestamp_ ≤ mp.timestamp_) := by
  have hF := FusionEKF.ProcessMeasurement_F env s mp h
  have h02 : (s.ProcessMeasurement env mp).ekf_.F_ 0 2 = s.dt mp := by
    rw [hF]; simp [setCoeff]
  have h13 : (s.ProcessMeasurement env mp).ekf_.F_ 1 3 = s.dt mp := by
    rw [hF]; simp [setCoeff]
  refine ⟨h02, h13, FusionEKF.ProcessMeasurement_Q env s mp h, ?_⟩
  rw [h02]
  exact FusionEKF.dt_nonneg_iff s mp

/-- Witness for C5 (amended): the example controller and a later radar record. -/
theorem elapsed_time_enters_unclamped_witness :
    demoState.is_initialized_ = true ∧
    (0 ≤ (demoState.ProcessMeasurement demoEnv demoRadar).ekf_.F_ 0 2
      ↔ demoState.previous_timestamp_ ≤ demoRadar.timestamp_) :=
  ⟨rfl, (elapsed_time_enters_unclamped demoEnv demoState demoRadar rfl).2.2.2⟩

/-- C6: when an observation reaches an initialized controller (any state reached from
construction) with the timestamp already recorded, the installed transition matrix is the
identity and the installed process noise is zero, so the prediction step with them leaves
every state vector and every covariance unchanged, in particular those of the controller. -/
theorem zero_elapsed_time_prediction_is_identity (env : Env α) (ekf0 : KalmanFilter α)
    (Hj0 : Matrix (Fin 3) (Fin 4) α) (ms : List (MeasurementPackage α))
    (mp : MeasurementPackage α)
    (hs : ((FusionEKF.new ekf0 Hj0).run env ms).is_initialized_ = true)
    (ht : mp.timestamp_ = ((FusionEKF.new ekf0 Hj0).run env ms).previous_timestamp_) :
    (((FusionEKF.new ekf0 Hj0).run env ms).timeModel mp).F_ = 1 ∧
    (((FusionEKF.new ekf0 Hj0).run env ms).timeModel mp).Q_ = 0 ∧
    (∀ (x : Fin 4 → α) (P : Matrix (Fin 4) (Fin 4) α),
      ({ ((FusionEKF.new ekf0 Hj0).run env ms).timeModel mp with
          x_ := x, P_ := P } : KalmanFilter α).Predict.x_ = x ∧
      ({ ((FusionEKF.new ekf0 Hj0).run env ms).timeModel mp with
          x_ := x, P_ := P } : KalmanFilter α).Predict.P_ = P) ∧
    (((FusionEKF.new ekf0 Hj0).run env ms).timeModel mp).Predict.x_
      = ((FusionEKF.new ekf0 Hj0).run env ms).ekf_.x_ ∧
    (((FusionEKF.new ekf0 Hj0).run env ms).timeModel mp).Predict.P_
      = ((FusionEKF.new ekf0 Hj0).run env ms).ekf_.P_ ∧
    (((FusionEKF.new ekf0 Hj0).run env ms).ProcessMeasurement env mp).ekf_.F_ = 1 ∧
    (((FusionEKF.new ekf0 Hj0).run env ms).ProcessMeasurement env mp).ekf_.Q_ = 0 := by
  obtain ⟨d, hd⟩ := FusionEKF.run_F_shape env ekf0 Hj0 ms
  have hdt : ((FusionEKF.new ekf0 Hj0).run env ms).dt mp = 0 := by
    simp [FusionEKF.dt, ht]
  have hF : (((FusionEKF.new ekf0 Hj0).run env ms).timeModel mp).F_ = 1 := by
    show setCoeff (setCoeff _ 0 2 _) 1 3 _ = 1
    rw [hdt, hd, setCoeff_constantVelocity, constantVelocity_zero]
  have hQ : (((FusionEKF.new ekf0 Hj0).run env ms).timeModel mp).Q_ = 0 := by
    show processNoise _ = 0
    rw [hdt, processNoise_zero]
  have hall : ∀ k : KalmanFilter α, k.F_ = 1 → k.Q_ = 0 →
      k.Predict.x_ = k.x_ ∧ k.Predict.P_ = k.P_ := by
    intro k h1 h0
    constructor
    · show k.F_.mulVec k.x_ = k.x_
      rw [h1, Matrix.one_mulVec]
    · show k.F_ * k.P_ * k.F_.transpose + k.Q_ = k.P_
      rw [h1, h0, Matrix.transpose_one, Matrix.one_mul, Matrix.mul_one, add_zero]
  refine ⟨hF, hQ, fun x P => hall _ hF hQ, (hall _ hF hQ).1, (hall _ hF hQ).2, ?_, ?_⟩
  · rw [FusionEKF.ProcessMeasurement_F _ _ _ hs]; exact hF
  · rw [FusionEKF.ProcessMeasurement_Q _ _ _ hs]; exact hQ

/-- Witness for C6: the first laser record of the example delivered a second time. -/
theorem zero_elapsed_time_prediction_is_identity_witness :
    ((FusionEKF.new demoKalman 0).run demoEnv [demoLaser]).is_initialized_ = true ∧
    demoLaser.timestamp_
      = ((FusionEKF.new demoKalman 0).run demoEnv [demoLaser]).previous_timestamp_ ∧
    (((FusionEKF.new demoKalman 0).run demoEnv [demoLaser]).timeModel demoLaser).Predict.P_
      = ((FusionEKF.new demoKalman 0).run demoEnv [demoLaser]).ekf_.P_ :=
  ⟨rfl, rfl,
    (zero_elapsed_time_prediction_is_identity demoEnv demoKalman 0 [demoLaser] demoLaser
      rfl rfl).2.2.2.2.1⟩

/-- C8: for every elapsed time `dt` (in any ordered field, the reals included) the process
noise built by `ProcessMeasurement` is `G * diag(9, 9) * Gᵀ` with `G = noiseGain dt`; its
entries that couple the x axis (indices 0, 2) with the y axis (indices 1, 3) are zero; and
this is the `Q_` an initialized call leaves in the estimator, for its own elapsed time. -/
theorem process_noise_is_acceleration_covariance (dt : α) (env : Env α) (s : FusionEKF α)
    (mp : MeasurementPackage α) (h : s.is_initialized_ = true) :
    processNoise dt
      = noiseGain dt * Matrix.diagonal (![9, 9] : Fin 2 → α) * (noiseGain dt).transpose ∧
    (∀ i j : Fin 4, (i.val + j.val) % 2 = 1 → processNoise dt i j = 0) ∧
    (s.ProcessMeasurement env mp).ekf_.Q_
      = noiseGain (s.dt mp) * Matrix.diagonal (![9, 9] : Fin 2 → α)
          * (noiseGain (s.dt mp)).transpose := by
  refine ⟨processNoise_factor dt, ?_, ?_⟩
  · intro i j hij
    rw [processNoise_apply]
    fin_cases i <;> fin_cases j <;> first | rfl | (exfalso; revert hij; decide)
  · rw [FusionEKF.ProcessMeasurement_Q env s mp h, processNoise_factor]

/-- Witness for C8: the example controller, a radar record, and `dt = 1/2`. -/
theorem process_noise_is_acceleration_covariance_witness :
    demoState.is_initialized_ = true ∧
    (demoState.ProcessMeasurement demoEnv demoRadar).ekf_.Q_
      = noiseGain (demoState.dt demoRadar) * Matrix.diagonal (![9, 9] : Fin 2 → ℚ)
          * (noiseGain (demoState.dt demoRadar)).transpose :=
  ⟨rfl, (process_noise_is_acceleration_covariance (1 / 2) demoEnv demoState demoRadar rfl).2.2⟩

/-- C9: in every state reached from construction the transition matrix is the
constant-velocity matrix `constantVelocity d`: `d = 1` before any observation and after
the first one, and after two or more observations `d` is the elapsed time between the last
two; and no call changes an entry of `F_` other than `(0, 2)` and `(1, 3)`. -/
theorem transition_matrix_stays_constant_velocity (env : Env α) (ekf0 : KalmanFilter α)
    (Hj0 : Matrix (Fin 3) (Fin 4) α) :
    (FusionEKF.new ekf0 Hj0).ekf_.F_ = constantVelocity 1 ∧
    (∀ a : MeasurementPackage α,
      ((FusionEKF.new ekf0 Hj0).run env [a]).ekf_.F_ = constantVelocity 1) ∧
    (∀ (pre : List (MeasurementPackage α)) (a b : MeasurementPackage α),
      ((FusionEKF.new ekf0 Hj0).run env (pre ++ [a, b])).ekf_.F_
        = constantVelocity (((b.timestamp_ - a.timestamp_ : Int) : α) / 1000000)) ∧
    (∀ (s : FusionEKF α) (mp : MeasurementPackage α) (i j : Fin 4),
      ¬ (i = 0 ∧ j = 2) → ¬ (i = 1 ∧ j = 3) →
      (s.ProcessMeasurement env mp).ekf_.F_ i j = s.ekf_.F_ i j) := by
  refine ⟨rfl, ?_, ?_, ?_⟩
  · intro a
    show ((FusionEKF.new ekf0 Hj0).ProcessMeasurement env a).ekf_.F_ = _
    rw [FusionEKF.ProcessMeasurement_F_first _ _ _ rfl]
    rfl
  · intro pre a b
    obtain ⟨d, hd⟩ := FusionEKF.run_F_shape env ekf0 Hj0 (pre ++ [a])
    have hrun : (FusionEKF.new ekf0 Hj0).run env (pre ++ [a, b])
        = ((FusionEKF.new ekf0 Hj0).run env (pre ++ [a])).ProcessMeasurement env b := by
      rw [← FusionEKF.run_concat]; simp
    have hinit : ((FusionEKF.new ekf0 Hj0).run env (pre ++ [a])).is_initialized_ = true := by
      rw [FusionEKF.run_concat]; simp
    have hdt : ((FusionEKF.new ekf0 Hj0).run env (pre ++ [a])).dt b
        = ((b.timestamp_ - a.timestamp_ : Int) : α) / 1000000 := by
      rw [FusionEKF.run_concat]
      simp [FusionEKF.dt]
    rw [hrun, FusionEKF.ProcessMeasurement_F _ _ _ hinit, hd, setCoeff_constantVelocity, hdt]
  · intro s mp i j h02 h13
    cases hi : s.is_initialized_
    · rw [FusionEKF.ProcessMeasurement_F_first _ _ _ hi]
    · rw [FusionEKF.ProcessMeasurement_F _ _ _ hi]
      simp only [setCoeff, Matrix.of_apply, h02, h13, if_false]

/-- Witness for C9: entry `(0, 3)` of the example controller across a radar call. -/
theorem transition_matrix_stays_constant_velocity_witness :
    ¬ ((0 : Fin 4) = 0 ∧ (3 : Fin 4) = 2) ∧ ¬ ((0 : Fin 4) = 1 ∧ (3 : Fin 4) = 3) ∧
    (demoState.ProcessMeasurement demoEnv demoRadar).ekf_.F_ 0 3 = demoState.ekf_.F_ 0 3 :=
  ⟨by decide, by decide,
    (transition_matrix_stays_constant_velocity demoEnv demoKalman 0).2.2.2
      demoState demoRadar 0 3 (by decide) (by decide)⟩

/-- C10: the covariance stays valid across prediction, over the reals (`Matrix.PosSemidef`
includes symmetry).  The covariance set by the constructor is symmetric
positive-semidefinite; for every `dt` and every positive-semidefinite `P` the predicted
covariance `F * P * Fᵀ + Q` is symmetric positive-semidefinite, both for the
constant-velocity `F` of `dt` and for the `F_` that `ProcessMeasurement` obtains from any
current one by writing `dt` into `(0, 2)` and `(1, 3)`, with `Q = processNoise dt`; hence
so is the covariance right after the `Predict` of a call on any controller whose
covariance is positive-semidefinite. -/
theorem prediction_keeps_covariance_valid (ekf0 : KalmanFilter ℝ)
    (Hj0 : Matrix (Fin 3) (Fin 4) ℝ) (dt : ℝ) (P : Matrix (Fin 4) (Fin 4) ℝ)
    (hP : P.PosSemidef) (s : FusionEKF ℝ) (mp : MeasurementPackage ℝ)
    (hs : s.ekf_.P_.PosSemidef) :
    ((FusionEKF.new ekf0 Hj0).ekf_.P_.IsSymm ∧ (FusionEKF.new ekf0 Hj0).ekf_.P_.PosSemidef) ∧
    ((constantVelocity dt * P * (constantVelocity dt).transpose + processNoise dt).IsSymm ∧
      (constantVelocity dt * P * (constantVelocity dt).transpose
        + processNoise dt).PosSemidef) ∧
    (∀ k : KalmanFilter ℝ, k.P_ = P →
      ({ k with
          F_ := setCoeff (setCoeff k.F_ 0 2 dt) 1 3 dt
          Q_ := processNoise dt } : KalmanFilter ℝ).Predict.P_.IsSymm ∧
      ({ k with
          F_ := setCoeff (setCoeff k.F_ 0 2 dt) 1 3 dt
          Q_ := processNoise dt } : KalmanFilter ℝ).Predict.P_.PosSemidef) ∧
    ((s.timeModel mp).Predict.P_.IsSymm ∧ (s.timeModel mp).Predict.P_.PosSemidef) := by
  have h0 : (FusionEKF.new ekf0 Hj0).ekf_.P_.PosSemidef := initial_covariance_posSemidef
  have h1 : (constantVelocity dt * P * (constantVelocity dt).transpose
      + processNoise dt).PosSemidef := by
    have hF : (constantVelocity dt * P * (constantVelocity dt).transpose).PosSemidef := by
      simpa using hP.mul_mul_conjTranspose_same (constantVelocity dt)
    exact hF.add (processNoise_posSemidef dt)
  have h2 : ∀ k : KalmanFilter ℝ, k.P_ = P →
      ({ k with
          F_ := setCoeff (setCoeff k.F_ 0 2 dt) 1 3 dt
          Q_ := processNoise dt } : KalmanFilter ℝ).Predict.P_.PosSemidef := by
    intro k hk
    apply KalmanFilter.Predict_posSemidef
    · show k.P_.PosSemidef
      rw [hk]; exact hP
    · exact processNoise_posSemidef dt
  have h3 : (s.timeModel mp).Predict.P_.PosSemidef :=
    KalmanFilter.Predict_posSemidef _ hs (processNoise_posSemidef _)
  exact ⟨⟨isSymm_of_posSemidef h0, h0⟩, ⟨isSymm_of_posSemidef h1, h1⟩,
    fun k hk => ⟨isSymm_of_posSemidef (h2 k hk), h2 k hk⟩, isSymm_of_posSemidef h3, h3⟩

/-- Witness for C10: the identity covariance, `dt = 1/2`, and a freshly constructed
controller over the reals. -/
theorem prediction_keeps_covariance_valid_witness :
    (1 : Matrix (Fin 4) (Fin 4) ℝ).PosSemidef ∧
    (FusionEKF.new (⟨0, 0, 0, 0, 0, 0, 0⟩ : KalmanFilter ℝ) 0).ekf_.P_.PosSemidef ∧
    (constantVelocity (1 / 2 : ℝ) * 1 * (constantVelocity (1 / 2 : ℝ)).transpose
      + processNoise (1 / 2 : ℝ)).PosSemidef :=
  ⟨Matrix.PosSemidef.one, initial_covariance_posSemidef,
    (prediction_keeps_covariance_valid ⟨0, 0, 0, 0, 0, 0, 0⟩ 0 (1 / 2) 1 Matrix.PosSemidef.one
      (FusionEKF.new ⟨0, 0, 0, 0, 0, 0, 0⟩ 0) ⟨SensorType.LASER, 0, [1, 2]⟩
      initial_covariance_posSemidef).2.1.2⟩

/-- C11: initialization from the radar ignores the range-rate: two first RADAR observations
with the same range, bearing and timestamp leave a freshly constructed controller in the
same state (state vector, covariance, transition matrix, recorded timestamp, initialized
flag and every other member), whatever their range-rates. -/
theorem radar_initialization_ignores_range_rate (env : Env α) (ekf0 : KalmanFilter α)
    (Hj0 : Matrix (Fin 3) (Fin 4) α) (t : Int) (rho phi rho_dot rho_dot2 : α) :
    (FusionEKF.new ekf0 Hj0).ProcessMeasurement env
        ⟨SensorType.RADAR, t, [rho, phi, rho_dot]⟩
      = (FusionEKF.new ekf0 Hj0).ProcessMeasurement env
        ⟨SensorType.RADAR, t, [rho, phi, rho_dot2]⟩ ∧
    ((FusionEKF.new ekf0 Hj0).ProcessMeasurement env
        ⟨SensorType.RADAR, t, [rho, phi, rho_dot]⟩).ekf_.x_
      = ((FusionEKF.new ekf0 Hj0).ProcessMeasurement env
        ⟨SensorType.RADAR, t, [rho, phi, rho_dot2]⟩).ekf_.x_ := by
  have h : (FusionEKF.new ekf0 Hj0).ProcessMeasurement env
        ⟨SensorType.RADAR, t, [rho, phi, rho_dot]⟩
      = (FusionEKF.new ekf0 Hj0).ProcessMeasurement env
        ⟨SensorType.RADAR, t, [rho, phi, rho_dot2]⟩ := by
    simp [FusionEKF.ProcessMeasurement, FusionEKF.new, coeff]
  exact ⟨h, by rw [h]⟩

/-- C12: the lifecycle has no way back.  A constructed controller is uninitialized, every
call leaves the controller initialized, so along any sequence from construction the
controller is initialized exactly when at least one observation has been processed; the
first observation writes the state vector from its raw values, and every later
observation `b` is processed as predict-then-update of the state reached before it. -/
theorem lifecycle_has_no_way_back (env : Env α) (ekf0 : KalmanFilter α)
    (Hj0 : Matrix (Fin 3) (Fin 4) α) :
    (FusionEKF.new ekf0 Hj0).is_initialized_ = false ∧
    (∀ (s : FusionEKF α) (mp : MeasurementPackage α),
      (s.ProcessMeasurement env mp).is_initialized_ = true) ∧
    (∀ ms : List (MeasurementPackage α),
      ((FusionEKF.new ekf0 Hj0).run env ms).is_initialized_ = true ↔ ms ≠ []) ∧
    (∀ a : MeasurementPackage α,
      ((FusionEKF.new ekf0 Hj0).run env [a]).ekf_.x_ =
        if a.sensor_type_ = SensorType.RADAR then
          ![coeff a.raw_measurements_ 0 * env.cos (coeff a.raw_measurements_ 1),
            coeff a.raw_measurements_ 0 * env.sin (coeff a.raw_measurements_ 1), 0, 0]
        else ![coeff a.raw_measurements_ 0, coeff a.raw_measurements_ 1, 0, 0]) ∧
    (∀ (pre : List (MeasurementPackage α)) (a b : MeasurementPackage α),
      ((FusionEKF.new ekf0 Hj0).run env (pre ++ [a, b])).ekf_ =
        if b.sensor_type_ = SensorType.RADAR then
          KalmanFilter.UpdateEKF env
            { (((FusionEKF.new ekf0 Hj0).run env (pre ++ [a])).timeModel b).Predict with
              rows := 3
              H_ := env.CalculateJacobian
                (((FusionEKF.new ekf0 Hj0).run env (pre ++ [a])).timeModel b).Predict.x_
              R_ := ((FusionEKF.new ekf0 Hj0).run env (pre ++ [a])).R_radar_ }
            b.raw_measurements_
        else
          KalmanFilter.Update
            { (((FusionEKF.new ekf0 Hj0).run env (pre ++ [a])).timeModel b).Predict with
              rows := 2
              H_ := ((FusionEKF.new ekf0 Hj0).run env (pre ++ [a])).H_laser_
              R_ := ((FusionEKF.new ekf0 Hj0).run env (pre ++ [a])).R_laser_ }
            b.raw_measurements_) := by
  refine ⟨rfl, fun s mp => by simp, ?_, ?_, ?_⟩
  · intro ms
    constructor
    · intro h hnil
      rw [hnil] at h
      exact absurd h (by simp [FusionEKF.new])
    · exact FusionEKF.run_is_initialized env _ ms
  · intro a
    cases ha : a.sensor_type_ <;>
      simp [FusionEKF.ProcessMeasurement, FusionEKF.new, ha] <;> norm_num
  · intro pre a b
    have hrun : (FusionEKF.new ekf0 Hj0).run env (pre ++ [a, b])
        = ((FusionEKF.new ekf0 Hj0).run env (pre ++ [a])).ProcessMeasurement env b := by
      rw [← FusionEKF.run_concat]; simp
    have hinit : ((FusionEKF.new ekf0 Hj0).run env (pre ++ [a])).is_initialized_ = true :=
      FusionEKF.run_is_initialized env _ _ (by simp)
    rw [hrun]
    by_cases hb : b.sensor_type_ = SensorType.RADAR
    · rw [if_pos hb, FusionEKF.ProcessMeasurement_radar env _ b hinit hb]
    · rw [if_neg hb, FusionEKF.ProcessMeasurement_laser env _ b hinit hb]

/-- C13: the fixed configuration is never re-derived: every call, on every controller
state and observation, leaves `R_laser_`, `R_radar_` and `H_laser_` as they were, so after
any sequence from construction they are `diag(0.0225, 0.0225)`,
`diag(0.09, 0.0009, 0.09)` and `[[1, 0, 0, 0], [0, 1, 0, 0]]`, as the constructor set
them. -/
theorem fixed_configuration_is_never_rederived (env : Env α) (ekf0 : KalmanFilter α)
    (Hj0 : Matrix (Fin 3) (Fin 4) α) :
    (∀ (s : FusionEKF α) (mp : MeasurementPackage α),
      (s.ProcessMeasurement env mp).R_laser_ = s.R_laser_ ∧
      (s.ProcessMeasurement env mp).R_radar_ = s.R_radar_ ∧
      (s.ProcessMeasurement env mp).H_laser_ = s.H_laser_) ∧
    (∀ ms : List (MeasurementPackage α),
      ((FusionEKF.new ekf0 Hj0).run env ms).R_laser_ = Matrix.diagonal ![0.0225, 0.0225] ∧
      ((FusionEKF.new ekf0 Hj0).run env ms).R_radar_
        = Matrix.diagonal ![0.09, 0.0009, 0.09] ∧
      ((FusionEKF.new ekf0 Hj0).run env ms).H_laser_ = !![1, 0, 0, 0; 0, 1, 0, 0]) := by
  refine ⟨FusionEKF.ProcessMeasurement_config env, fun ms => ?_⟩
  obtain ⟨h1, h2, h3⟩ := FusionEKF.run_config env (FusionEKF.new ekf0 Hj0) ms
  exact ⟨h1.trans (FusionEKF.new_R_laser ekf0 Hj0), h2.trans (FusionEKF.new_R_radar ekf0 Hj0),
    h3.trans (FusionEKF.new_H_laser ekf0 Hj0)⟩

/-- C14: over the reals, with the real cosine and sine, `hypot a b = sqrt (a² + b²)` and
`atan2 y x` the argument of `x + y i` in `(-π, π]`: for a first RADAR observation with
range `rho > 0` and bearing `phi` in `(-π, π]` the initial state `[px, py, 0, 0]` has
`hypot px py = rho`, `atan2 py px = phi` and predicted range-rate
`(px * vx + py * vy) / rho = 0`, so the observation function of the specification maps it
to `[rho, phi, 0]`. -/
theorem radar_initialization_inverts_observation (ekf0 : KalmanFilter ℝ)
    (Hj0 : Matrix (Fin 3) (Fin 4) ℝ) (e : Env ℝ) (t : Int) (rho phi rho_dot : ℝ)
    (hrho : 0 < rho) (hphi : phi ∈ Set.Ioc (-Real.pi) Real.pi) :
    Real.sqrt
      ((((FusionEKF.new ekf0 Hj0).ProcessMeasurement
          { e with cos := Real.cos, sin := Real.sin }
          ⟨SensorType.RADAR, t, [rho, phi, rho_dot]⟩).ekf_.x_ 0) ^ 2
        + (((FusionEKF.new ekf0 Hj0).ProcessMeasurement
          { e with cos := Real.cos, sin := Real.sin }
          ⟨SensorType.RADAR, t, [rho, phi, rho_dot]⟩).ekf_.x_ 1) ^ 2) = rho ∧
    Complex.arg
      ⟨((FusionEKF.new ekf0 Hj0).ProcessMeasurement
          { e with cos := Real.cos, sin := Real.sin }
          ⟨SensorType.RADAR, t, [rho, phi, rho_dot]⟩).ekf_.x_ 0,
        ((FusionEKF.new ekf0 Hj0).ProcessMeasurement
          { e with cos := Real.cos, sin := Real.sin }
          ⟨SensorType.RADAR, t, [rho, phi, rho_dot]⟩).ekf_.x_ 1⟩ = phi ∧
    (((FusionEKF.new ekf0 Hj0).ProcessMeasurement
          { e with cos := Real.cos, sin := Real.sin }
          ⟨SensorType.RADAR, t, [rho, phi, rho_dot]⟩).ekf_.x_ 0
        * ((FusionEKF.new ekf0 Hj0).ProcessMeasurement
          { e with cos := Real.cos, sin := Real.sin }
          ⟨SensorType.RADAR, t, [rho, phi, rho_dot]⟩).ekf_.x_ 2
      + ((FusionEKF.new ekf0 Hj0).ProcessMeasurement
          { e with cos := Real.cos, sin := Real.sin }
          ⟨SensorType.RADAR, t, [rho, phi, rho_dot]⟩).ekf_.x_ 1
        * ((FusionEKF.new ekf0 Hj0).ProcessMeasurement
          { e with cos := Real.cos, sin := Real.sin }
          ⟨SensorType.RADAR, t, [rho, phi, rho_dot]⟩).ekf_.x_ 3) / rho = 0 ∧
    radarObservation (fun a b => Real.sqrt (a ^ 2 + b ^ 2))
        (fun y x => Complex.arg ⟨x, y⟩)
        ((FusionEKF.new ekf0 Hj0).ProcessMeasurement
          { e with cos := Real.cos, sin := Real.sin }
          ⟨SensorType.RADAR, t, [rho, phi, rho_dot]⟩).ekf_.x_
      = ![rho, phi, 0] := by
  rw [FusionEKF.new_radar_state]
  have h1 := hypot_polar rho phi hrho.le
  have h2 := atan2_polar rho phi hrho hphi
  refine ⟨by simpa using h1, by simpa using h2, by simp, ?_⟩
  ext i
  fin_cases i
  · simpa [radarObservation] using h1
  · simpa [radarObservation] using h2
  · simp [radarObservation]

/-- Witness for C14: range 5 and bearing 0. -/
theorem radar_initialization_inverts_observation_witness :
    (0 : ℝ) < 5 ∧ (0 : ℝ) ∈ Set.Ioc (-Real.pi) Real.pi ∧
    radarObservation (fun a b => Real.sqrt (a ^ 2 + b ^ 2))
        (fun y x => Complex.arg ⟨x, y⟩)
        ((FusionEKF.new (⟨0, 0, 0, 0, 0, 0, 0⟩ : KalmanFilter ℝ) 0).ProcessMeasurement
          { cos := Real.cos, sin := Real.sin, CalculateJacobian := fun _ => 0,
            h := fun _ _ => 0, normalize := id }
          ⟨SensorType.RADAR, 0, [5, 0, 0]⟩).ekf_.x_
      = ![5, 0, 0] :=
  ⟨by norm_num, ⟨by simp [Real.pi_pos], Real.pi_pos.le⟩,
    (radar_initialization_inverts_observation ⟨0, 0, 0, 0, 0, 0, 0⟩ 0
      ⟨Real.cos, Real.sin, fun _ => 0, fun _ _ => 0, id⟩ 0 5 0 0 (by norm_num)
      ⟨by simp [Real.pi_pos], Real.pi_pos.le⟩).2.2.2⟩

/-- C15: over the reals, with the noise covariances fixed by the constructor, the
innovation covariance is never singular.  For every positive-semidefinite `P`
(`Matrix.PosSemidef` includes symmetry), `H_laser_ * P * H_laser_ᵀ + R_laser_` and, for
every 3×4 matrix `H`, `H * P * Hᵀ + R_radar_` are symmetric positive-definite, and the
inverse taken by the update is a two-sided inverse.  The matrix inverted by `Update` and
`UpdateEKF` is this innovation covariance; along every sequence of calls from construction
the covariance stays positive-semidefinite, so for every next observation the innovation
covariance of the estimator handed to `UpdateEKF` (radar) or `Update` (laser) is
positive-definite and inverted exactly. -/
theorem innovation_covariance_is_never_singular (env : Env ℝ) (ekf0 : KalmanFilter ℝ)
    (Hj0 : Matrix (Fin 3) (Fin 4) ℝ) (P : Matrix (Fin 4) (Fin 4) ℝ) (hP : P.PosSemidef)
    (H : Matrix (Fin 3) (Fin 4) ℝ) (ms : List (MeasurementPackage ℝ))
    (mp : MeasurementPackage ℝ) :
    (((FusionEKF.new ekf0 Hj0).H_laser_ * P * (FusionEKF.new ekf0 Hj0).H_laser_.transpose
        + (FusionEKF.new ekf0 Hj0).R_laser_).IsSymm ∧
      ((FusionEKF.new ekf0 Hj0).H_laser_ * P * (FusionEKF.new ekf0 Hj0).H_laser_.transpose
        + (FusionEKF.new ekf0 Hj0).R_laser_).PosDef ∧
      inverse ((FusionEKF.new ekf0 Hj0).H_laser_ * P
          * (FusionEKF.new ekf0 Hj0).H_laser_.transpose + (FusionEKF.new ekf0 Hj0).R_laser_)
        * ((FusionEKF.new ekf0 Hj0).H_laser_ * P
          * (FusionEKF.new ekf0 Hj0).H_laser_.transpose + (FusionEKF.new ekf0 Hj0).R_laser_)
        = 1 ∧
      ((FusionEKF.new ekf0 Hj0).H_laser_ * P
          * (FusionEKF.new ekf0 Hj0).H_laser_.transpose + (FusionEKF.new ekf0 Hj0).R_laser_)
        * inverse ((FusionEKF.new ekf0 Hj0).H_laser_ * P
          * (FusionEKF.new ekf0 Hj0).H_laser_.transpose + (FusionEKF.new ekf0 Hj0).R_laser_)
        = 1) ∧
    ((H * P * H.transpose + (FusionEKF.new ekf0 Hj0).R_radar_).IsSymm ∧
      (H * P * H.transpose + (FusionEKF.new ekf0 Hj0).R_radar_).PosDef ∧
      inverse (H * P * H.transpose + (FusionEKF.new ekf0 Hj0).R_radar_)
        * (H * P * H.transpose + (FusionEKF.new ekf0 Hj0).R_radar_) = 1 ∧
      (H * P * H.transpose + (FusionEKF.new ekf0 Hj0).R_radar_)
        * inverse (H * P * H.transpose + (FusionEKF.new ekf0 Hj0).R_radar_) = 1) ∧
    (∀ (k : KalmanFilter ℝ) (y : Fin k.rows → ℝ),
      (k.correct y).P_
        = (1 - k.P_ * k.H_.transpose * inverse k.innovationCovariance * k.H_) * k.P_) ∧
    ((FusionEKF.new ekf0 Hj0).run env ms).ekf_.P_.PosSemidef ∧
    (({ (((FusionEKF.new ekf0 Hj0).run env ms).timeModel mp).Predict with
          rows := 3
          H_ := env.CalculateJacobian
            (((FusionEKF.new ekf0 Hj0).run env ms).timeModel mp).Predict.x_
          R_ := ((FusionEKF.new ekf0 Hj0).run env ms).R_radar_ }
        : KalmanFilter ℝ).innovationCovariance.PosDef ∧
      inverse ({ (((FusionEKF.new ekf0 Hj0).run env ms).timeModel mp).Predict with
          rows := 3
          H_ := env.CalculateJacobian
            (((FusionEKF.new ekf0 Hj0).run env ms).timeModel mp).Predict.x_
          R_ := ((FusionEKF.new ekf0 Hj0).run env ms).R_radar_ }
        : KalmanFilter ℝ).innovationCovariance
        * ({ (((FusionEKF.new ekf0 Hj0).run env ms).timeModel mp).Predict with
          rows := 3
          H_ := env.CalculateJacobian
            (((FusionEKF.new ekf0 Hj0).run env ms).timeModel mp).Predict.x_
          R_ := ((FusionEKF.new ekf0 Hj0).run env ms).R_radar_ }
        : KalmanFilter ℝ).innovationCovariance = 1) ∧
    (({ (((FusionEKF.new ekf0 Hj0).run env ms).timeModel mp).Predict with
          rows := 2
          H_ := ((FusionEKF.new ekf0 Hj0).run env ms).H_laser_
          R_ := ((FusionEKF.new ekf0 Hj0).run env ms).R_laser_ }
        : KalmanFilter ℝ).innovationCovariance.PosDef ∧
      inverse ({ (((FusionEKF.new ekf0 Hj0).run env ms).timeModel mp).Predict with
          rows := 2
          H_ := ((FusionEKF.new ekf0 Hj0).run env ms).H_laser_
          R_ := ((FusionEKF.new ekf0 Hj0).run env ms).R_laser_ }
        : KalmanFilter ℝ).innovationCovariance
        * ({ (((FusionEKF.new ekf0 Hj0).run env ms).timeModel mp).Predict with
          rows := 2
          H_ := ((FusionEKF.new ekf0 Hj0).run env ms).H_laser_
          R_ := ((FusionEKF.new ekf0 Hj0).run env ms).R_laser_ }
        : KalmanFilter ℝ).innovationCovariance = 1) := by
  have hRl : (FusionEKF.new ekf0 Hj0).R_laser_.PosDef := by
    rw [FusionEKF.new_R_laser]; exact R_laser_posDef
  have hRr : (FusionEKF.new ekf0 Hj0).R_radar_.PosDef := by
    rw [FusionEKF.new_R_radar]; exact R_radar_posDef
  obtain ⟨c1, c2, -⟩ := FusionEKF.run_config env (FusionEKF.new ekf0 Hj0) ms
  have hrun := FusionEKF.run_posSemidef env ekf0 Hj0 ms
  have hpred : (((FusionEKF.new ekf0 Hj0).run env ms).timeModel mp).Predict.P_.PosSemidef :=
    KalmanFilter.Predict_posSemidef _ hrun (processNoise_posSemidef _)
  have hl := innovation_posDef P (FusionEKF.new ekf0 Hj0).H_laser_ _ hP hRl
  have hr := innovation_posDef P H _ hP hRr
  have hkr := KalmanFilter.innovationCovariance_posDef
    ({ (((FusionEKF.new ekf0 Hj0).run env ms).timeModel mp).Predict with
        rows := 3
        H_ := env.CalculateJacobian
          (((FusionEKF.new ekf0 Hj0).run env ms).timeModel mp).Predict.x_
        R_ := ((FusionEKF.new ekf0 Hj0).run env ms).R_radar_ } : KalmanFilter ℝ)
    hpred (by show ((FusionEKF.new ekf0 Hj0).run env ms).R_radar_.PosDef; rw [c2]; exact hRr)
  have hkl := KalmanFilter.innovationCovariance_posDef
    ({ (((FusionEKF.new ekf0 Hj0).run env ms).timeModel mp).Predict with
        rows := 2
        H_ := ((FusionEKF.new ekf0 Hj0).run env ms).H_laser_
        R_ := ((FusionEKF.new ekf0 Hj0).run env ms).R_laser_ } : KalmanFilter ℝ)
    hpred (by show ((FusionEKF.new ekf0 Hj0).run env ms).R_laser_.PosDef; rw [c1]; exact hRl)
  exact ⟨⟨isSymm_of_posDef hl, hl, inverse_mul_self _ hl.det_pos.ne',
      mul_inverse_self _ hl.det_pos.ne'⟩,
    ⟨isSymm_of_posDef hr, hr, inverse_mul_self _ hr.det_pos.ne',
      mul_inverse_self _ hr.det_pos.ne'⟩,
    fun k y => rfl, hrun, ⟨hkr, inverse_mul_self _ hkr.det_pos.ne'⟩,
    ⟨hkl, inverse_mul_self _ hkl.det_pos.ne'⟩⟩

/-- Witness for C15: the identity covariance. -/
theorem innovation_covariance_is_never_singular_witness :
    (1 : Matrix (Fin 4) (Fin 4) ℝ).PosSemidef ∧
    ((FusionEKF.new (⟨0, 0, 0, 0, 0, 0, 0⟩ : KalmanFilter ℝ) 0).H_laser_
        * (1 : Matrix (Fin 4) (Fin 4) ℝ)
        * (FusionEKF.new (⟨0, 0, 0, 0, 0, 0, 0⟩ : KalmanFilter ℝ) 0).H_laser_.transpose
      + (FusionEKF.new (⟨0, 0, 0, 0, 0, 0, 0⟩ : KalmanFilter ℝ) 0).R_laser_).PosDef :=
  ⟨Matrix.PosSemidef.one,
    (innovation_covariance_is_never_singular
      ⟨Real.cos, Real.sin, fun _ => 0, fun _ _ => 0, id⟩ ⟨0, 0, 0, 0, 0, 0, 0⟩ 0 1
      Matrix.PosSemidef.one 0 [] ⟨SensorType.LASER, 0, [1, 2]⟩).1.2.1⟩

end Claims
end EKF
